import Mathlib

/-!
Verification development for the LogKeeper session logger
(`src/logkeeper.ts`).  The class `LogKeeper` is embedded shallowly: the
process-wide mutable state (the static `instance` field, the constructed
objects, the open `fs.WriteStream`s, the directories on disk and the
diagnostic stderr channel) is a `ProcState`, and each public operation is a
state transformer returning the new state together with the exception
outcome its caller observes.  Asynchrony of `initializeLogger` is modelled
by recording scheduled initializations as pending; a separate
`completeInit` step lets the event loop run one of them to completion,
either successfully or with a caught error.
-/

/-- Local wall-clock reading, mirroring the component accessors of a
JavaScript `Date` object; `getMonth` is zero-based, as in JavaScript. -/
structure JsDate where
  getFullYear : Nat
  getMonth : Nat
  getDate : Nat
  getHours : Nat
  getMinutes : Nat
  getSeconds : Nat
  deriving Repr, DecidableEq

/-- Component ranges of a real JavaScript local-time reading. -/
abbrev JsDate.Valid (d : JsDate) : Prop :=
  d.getMonth ≤ 11 ∧ 1 ≤ d.getDate ∧ d.getDate ≤ 31 ∧ d.getHours ≤ 23 ∧
    d.getMinutes ≤ 59 ∧ d.getSeconds ≤ 59

/-- Decimal digit characters of a natural number, most significant first,
modelling the JavaScript number-to-string conversion performed by template
literals.  The first argument is recursion fuel; `n + 1` units of fuel always
suffice for `n`, because `n / 10 < n` when `10 ≤ n`. -/
def natToCharsAux : Nat → Nat → List Char
  | 0, _ => []
  | fuel + 1, n =>
    if n < 10 then [Nat.digitChar n]
    else natToCharsAux fuel (n / 10) ++ [Nat.digitChar (n % 10)]

/-- JavaScript conversion of a natural number to its decimal string. -/
def natToString (n : Nat) : String :=
  String.mk (natToCharsAux (n + 1) n)

/-- Embeds JavaScript `String.prototype.padStart(targetLength, padChar)`. -/
def padStart (s : String) (targetLength : Nat) (padChar : Char) : String :=
  String.mk (List.replicate (targetLength - s.length) padChar) ++ s

/-- POSIX behaviour of node:path `join` on two plain segments. -/
def pathJoin (a b : String) : String :=
  a ++ ("/") ++ b

/-- Modelled from the spec: the file `src/log-levels.ts` defining `LogLevel`
is not among the provided sources; the spec fixes the closed enumeration of
the four severity levels INFO, WARNING, ERROR, CRITICAL. -/
inductive LogLevel where
  | INFO
  | WARNING
  | ERROR
  | CRITICAL
  deriving Repr, DecidableEq

/-- Modelled from the spec: the string each level interpolates to in a log
line, per the spec's line format and the documented example output. -/
def LogLevel.str : LogLevel → String
  | .INFO => "INFO"
  | .WARNING => "WARNING"
  | .ERROR => "ERROR"
  | .CRITICAL => "CRITICAL"

/-- Embeds `LogKeeper.formatFilenameTimestamp` (src/logkeeper.ts, lines
63-72): year unpadded, the other five components padded to two digits. -/
def formatFilenameTimestamp (date : JsDate) : String :=
  natToString date.getFullYear ++ ("-") ++
    padStart (natToString (date.getMonth + 1)) 2 ('0') ++ ("-") ++
    padStart (natToString date.getDate) 2 ('0') ++ ("_") ++
    padStart (natToString date.getHours) 2 ('0') ++ ("-") ++
    padStart (natToString date.getMinutes) 2 ('0') ++ ("-") ++
    padStart (natToString date.getSeconds) 2 ('0')

/-- Embeds `LogKeeper.formatLogTimestamp` (lines 74-80). -/
def formatLogTimestamp (date : JsDate) : String :=
  padStart (natToString date.getHours) 2 ('0') ++ (":") ++
    padStart (natToString date.getMinutes) 2 ('0') ++ (":") ++
    padStart (natToString date.getSeconds) 2 ('0')

/-- Embeds the log line built by `LogKeeper.writeLog` (line 91): the
timestamp in brackets, the level, and the message interpolated verbatim,
followed by a newline. -/
def logEntry (timestamp : String) (level : LogLevel) (message : String) : String :=
  ("[") ++ timestamp ++ ("] ") ++ level.str ++ (": ") ++ message ++ ("\n")

/-- Constant head of a log line, everything before the message. -/
def entryHead (timestamp : String) (level : LogLevel) : String :=
  ("[") ++ timestamp ++ ("] ") ++ level.str ++ (": ")

/-- Errors surfaced by the runtime; their content is irrelevant here. -/
abbrev JsError := String

/-- One `fs.WriteStream`: its target path, the chunks written so far in
order, and whether `end()` has completed. -/
structure WriteStream where
  path : String
  chunks : List String
  ended : Bool
  deriving Repr, DecidableEq

/-- One `LogKeeper` object: the fields assigned by the constructor.
`writeStream` holds an index into the open streams, or `none` while the
field is still null. -/
structure LogKeeper where
  logDir : String
  logFile : String
  writeStream : Option Nat
  deriving Repr, DecidableEq

/-- Whole-process state: every `LogKeeper` constructed so far (the static
`LogKeeper.instance` field holds the index of the last one), the
initializations scheduled but not yet run by the event loop, the streams,
the directories existing on disk and the diagnostic stderr messages. -/
structure ProcState where
  instances : List LogKeeper
  storedInstance : Option Nat
  pendingInits : List Nat
  streams : List WriteStream
  dirs : List String
  stderrMsgs : List String
  deriving Repr, DecidableEq

/-- Process state at module load: nothing constructed, nothing on disk. -/
def initState : ProcState :=
  { instances := [], storedInstance := none, pendingInits := [], streams := [],
    dirs := [], stderrMsgs := [] }

/-- Embeds the `LogKeeper` constructor (lines 34-41) run at local time
`now`: `logDir` is the literal `logs`, `logFile` joins it with the filename
timestamp of `now`, and `writeStream` starts out null.  The constructor's
call to `initializeLogger` is asynchronous; the caller records it as
pending. -/
def mkLogKeeper (now : JsDate) : LogKeeper :=
  { logDir := "logs"
    logFile := pathJoin ("logs") (formatFilenameTimestamp now ++ (".log"))
    writeStream := none }

/-- Embeds `LogKeeper.getInstance` (lines 43-46): unconditionally constructs
a new `LogKeeper`, overwrites the static field with it and returns it.  The
result is the new object, its index, and the updated process state with the
new object's initialization pending. -/
def getInstance (s : ProcState) (now : JsDate) : LogKeeper × Nat × ProcState :=
  (mkLogKeeper now, s.instances.length,
    { s with
      instances := s.instances ++ [mkLogKeeper now]
      storedInstance := some s.instances.length
      pendingInits := s.pendingInits ++ [s.instances.length] })

/-- Replace the element at an index of a list (no-op when out of range). -/
def updateNth {α : Type _} (f : α → α) : List α → Nat → List α
  | [], _ => []
  | x :: xs, 0 => f x :: xs
  | x :: xs, n + 1 => x :: updateNth f xs n

/-- Effect of `mkdir(dir) with recursive true` on the directories: create
the directory if absent, succeed silently if already present. -/
def mkdirRecursive (dirs : List String) (d : String) : List String :=
  if d ∈ dirs then dirs else dirs ++ [d]

/-- Event-loop completion of a pending `initializeLogger` call (lines 48-61)
for the instance at index `id`.  On success (`res = none`) the log directory
is created recursively and a write stream is opened in append mode on the
instance's log file; on failure the error is caught and reported to the
diagnostic channel, leaving `writeStream` null. -/
def completeInit (s : ProcState) (id : Nat) (res : Option JsError) : ProcState :=
  match s.instances[id]? with
  | none => s
  | some inst =>
    let s0 := { s with pendingInits := s.pendingInits.erase id }
    match res with
    | none =>
      { s0 with
        dirs := mkdirRecursive s0.dirs inst.logDir
        streams := s0.streams ++ [{ path := inst.logFile, chunks := [], ended := false }]
        instances := updateNth (fun i => { i with writeStream := some s0.streams.length }) s0.instances id }
    | some err =>
      { s0 with stderrMsgs := s0.stderrMsgs ++ [("Failed to initialize LogKeeper: ") ++ err] }

/-- Embeds `WriteStream.write`: append one chunk to the stream's queue. -/
def streamWrite (s : ProcState) (sid : Nat) (chunk : String) : ProcState :=
  { s with streams := updateNth (fun st => { st with chunks := st.chunks ++ [chunk] }) s.streams sid }

/-- Embeds `WriteStream.end`: flush and close the stream. -/
def streamEnd (s : ProcState) (sid : Nat) : ProcState :=
  { s with streams := updateNth (fun st => { st with ended := true }) s.streams sid }

/-- Embeds `LogKeeper.writeLog` (lines 82-94).  `ctorNow` is the `new Date()`
read by the constructor inside `getInstance`; `entryNow` is the `new Date()`
read for the entry timestamp.  Returns the new process state together with
the exception outcome the caller observes. -/
def writeLog (s : ProcState) (level : LogLevel) (message : String)
    (ctorNow entryNow : JsDate) : ProcState × Except JsError Unit :=
  let g := getInstance s ctorNow
  match g.1.writeStream with
  | none =>
    ({ g.2.2 with stderrMsgs := g.2.2.stderrMsgs ++ [("LogKeeper not initialized")] },
      Except.ok ())
  | some sid =>
    (streamWrite g.2.2 sid (logEntry (formatLogTimestamp entryNow) level message),
      Except.ok ())

/-- Embeds the completion handler of the promise built by `saveLogs` (lines
190-199): the callback passed to `writeStream.end` rejects the promise with
the reported error, and resolves it otherwise. -/
def saveLogsEndCallback (error : Option JsError) : Except JsError Unit :=
  match error with
  | some e => Except.error e
  | none => Except.ok ()

/-- Null out the `writeStream` field of the instance at `id` (line 195). -/
def clearWriteStream (s : ProcState) (id : Nat) : ProcState :=
  { s with instances := updateNth (fun i => { i with writeStream := none }) s.instances id }

/-- Embeds `LogKeeper.saveLogs` (lines 186-201).  `endErr` is the error, if
any, that the underlying stream reports to the `end` callback. -/
def saveLogs (s : ProcState) (now : JsDate) (endErr : Option JsError) :
    ProcState × Except JsError Unit :=
  let g := getInstance s now
  match g.1.writeStream with
  | none => (g.2.2, Except.ok ())
  | some sid =>
    match saveLogsEndCallback endErr with
    | Except.error e => (g.2.2, Except.error e)
    | Except.ok _ => (clearWriteStream (streamEnd g.2.2 sid) g.2.1, Except.ok ())

/-- Zero-padded two-digit decimal field, following the spec's words. -/
def specPad2 (n : Nat) : String :=
  (if n < 10 then ("0") else ("")) ++ natToString n

/-- Filename timestamp as the spec words it: `yyyy-MM-dd_HH-mm-ss`, local
time components with the two-digit fields zero-padded. -/
def specFilenameTimestamp (d : JsDate) : String :=
  natToString d.getFullYear ++ ("-") ++ specPad2 (d.getMonth + 1) ++ ("-") ++
    specPad2 d.getDate ++ ("_") ++ specPad2 d.getHours ++ ("-") ++
    specPad2 d.getMinutes ++ ("-") ++ specPad2 d.getSeconds

/-- Character suffix of a filename timestamp after the year digits. -/
def tsRest (d : JsDate) : List Char :=
  ('-') :: ((specPad2 (d.getMonth + 1)).data ++
    ('-') :: ((specPad2 d.getDate).data ++
      ('_') :: ((specPad2 d.getHours).data ++
        ('-') :: ((specPad2 d.getMinutes).data ++
          ('-') :: (specPad2 d.getSeconds).data))))

/-- Value of a big-endian decimal digit string. -/
def charsToNat (l : List Char) : Nat :=
  l.foldl (fun a c => 10 * a + (c.toNat - 48)) 0

/-- Sample session-creation time used by the concrete scenarios. -/
def sampleDate : JsDate :=
  { getFullYear := 2025, getMonth := 9, getDate := 19, getHours := 14,
    getMinutes := 30, getSeconds := 45 }

/-- Second sample time, one second after `sampleDate`. -/
def sampleDate2 : JsDate :=
  { sampleDate with getSeconds := 46 }

/-- Scenario: one emit, then its scheduled initialization completes
successfully (opening the stream), then close. -/
def emitInitCloseScenario : ProcState × Except JsError Unit :=
  saveLogs (completeInit (writeLog initState LogLevel.INFO ("a") sampleDate sampleDate).1 0 none)
    sampleDate2 none

/-- Scenario: one emit, initialization completes, close, then close again. -/
def doubleCloseScenario : ProcState × Except JsError Unit :=
  saveLogs
    (saveLogs (completeInit (writeLog initState LogLevel.INFO ("a") sampleDate sampleDate).1 0 none)
      sampleDate2 none).1
    sampleDate2 none

/-- Strings append on their character data. -/
theorem strData_append (s t : String) : (s ++ t).data = s.data ++ t.data := rfl

/-- Strings with equal character data are equal. -/
theorem strExt {s t : String} (h : s.data = t.data) : s = t := by
  cases s
  cases t
  exact congrArg String.mk h

/-- Appending one character multiplies the decimal value by ten and adds the
character's digit value. -/
theorem charsToNat_append (l : List Char) (c : Char) :
    charsToNat (l ++ [c]) = 10 * charsToNat l + (c.toNat - 48) := by
  simp [charsToNat, List.foldl_append]

/-- Decimal value of a single digit character. -/
theorem charsToNat_digit : ∀ n, n < 10 → charsToNat [Nat.digitChar n] = n := by decide

/-- Code of a digit character, recovered. -/
theorem digitChar_val : ∀ n, n < 10 → (Nat.digitChar n).toNat - 48 = n := by decide

/-- With enough fuel, the digit characters of `n` evaluate back to `n`. -/
theorem charsToNat_natToCharsAux :
    ∀ fuel n, n < fuel → charsToNat (natToCharsAux fuel n) = n := by
  intro fuel
  induction fuel with
  | zero => intro n h; omega
  | succ fuel ih =>
    intro n h
    rw [natToCharsAux]
    by_cases h10 : n < 10
    · rw [if_pos h10]
      exact charsToNat_digit n h10
    · rw [if_neg h10, charsToNat_append, ih (n / 10) (by omega),
        digitChar_val (n % 10) (by omega)]
      omega

/-- Round trip: evaluating the decimal string of `n` gives back `n`. -/
theorem charsToNat_natToString (n : Nat) : charsToNat (natToString n).data = n := by
  have h : (natToString n).data = natToCharsAux (n + 1) n := rfl
  rw [h, charsToNat_natToCharsAux (n + 1) n (by omega)]

/-- The decimal-string conversion is injective on its character data. -/
theorem natToString_inj {a b : Nat} (h : (natToString a).data = (natToString b).data) :
    a = b := by
  have ha := charsToNat_natToString a
  have hb := charsToNat_natToString b
  rw [← ha, ← hb, h]

/-- For two-digit-range values, padStart of the decimal string agrees with
the spec's zero-padded field. -/
theorem padStart_eq_specPad2 :
    ∀ n, n < 100 → padStart (natToString n) 2 ('0') = specPad2 n := by decide

/-- A spec zero-padded field always has exactly two characters. -/
theorem specPad2_data_length : ∀ n, n < 100 → ((specPad2 n).data).length = 2 := by decide

/-- Round trip on spec zero-padded fields. -/
theorem charsToNat_specPad2 : ∀ n, n < 100 → charsToNat ((specPad2 n).data) = n := by decide

/-- A spec zero-padded field never contains a newline. -/
theorem newline_not_mem_specPad2 :
    ∀ n, n < 100 → ('\n') ∈ (specPad2 n).data → False := by decide

/-- Under valid component ranges, the code's filename formatter produces
exactly the spec's `yyyy-MM-dd_HH-mm-ss` string. -/
theorem formatFilenameTimestamp_eq_spec (d : JsDate) (hv : d.Valid) :
    formatFilenameTimestamp d = specFilenameTimestamp d := by
  obtain ⟨h1, h2, h3, h4, h5, h6⟩ := hv
  rw [formatFilenameTimestamp, specFilenameTimestamp,
    padStart_eq_specPad2 (d.getMonth + 1) (by omega),
    padStart_eq_specPad2 d.getDate (by omega),
    padStart_eq_specPad2 d.getHours (by omega),
    padStart_eq_specPad2 d.getMinutes (by omega),
    padStart_eq_specPad2 d.getSeconds (by omega)]

/-- Character-level decomposition of the spec filename timestamp: the year
digits followed by the fixed-length remainder. -/
theorem specFilenameTimestamp_data (d : JsDate) :
    (specFilenameTimestamp d).data = (natToString d.getFullYear).data ++ tsRest d := by
  simp [specFilenameTimestamp, tsRest, strData_append]

/-- The remainder after the year digits always has fifteen characters. -/
theorem tsRest_length (d : JsDate) (hv : d.Valid) : (tsRest d).length = 15 := by
  obtain ⟨h1, h2, h3, h4, h5, h6⟩ := hv
  simp [tsRest, List.length_append,
    specPad2_data_length (d.getMonth + 1) (by omega),
    specPad2_data_length d.getDate (by omega),
    specPad2_data_length d.getHours (by omega),
    specPad2_data_length d.getMinutes (by omega),
    specPad2_data_length d.getSeconds (by omega)]

/-- Equal remainders force equal non-year components. -/
theorem tsRest_inj (d1 d2 : JsDate) (hv1 : d1.Valid) (hv2 : d2.Valid)
    (h : tsRest d1 = tsRest d2) :
    d1.getMonth = d2.getMonth ∧ d1.getDate = d2.getDate ∧ d1.getHours = d2.getHours ∧
      d1.getMinutes = d2.getMinutes ∧ d1.getSeconds = d2.getSeconds := by
  obtain ⟨a1, b1, c1, e1, f1, g1⟩ := hv1
  obtain ⟨a2, b2, c2, e2, f2, g2⟩ := hv2
  rw [tsRest, tsRest] at h
  injection h with hc h
  obtain ⟨hM, h⟩ := List.append_inj h
    (by rw [specPad2_data_length (d1.getMonth + 1) (by omega),
      specPad2_data_length (d2.getMonth + 1) (by omega)])
  injection h with hc h
  obtain ⟨hD, h⟩ := List.append_inj h
    (by rw [specPad2_data_length d1.getDate (by omega),
      specPad2_data_length d2.getDate (by omega)])
  injection h with hc h
  obtain ⟨hH, h⟩ := List.append_inj h
    (by rw [specPad2_data_length d1.getHours (by omega),
      specPad2_data_length d2.getHours (by omega)])
  injection h with hc h
  obtain ⟨hMi, hS0⟩ := List.append_inj h
    (by rw [specPad2_data_length d1.getMinutes (by omega),
      specPad2_data_length d2.getMinutes (by omega)])
  injection hS0 with hc4 hS
  have vM1 := charsToNat_specPad2 (d1.getMonth + 1) (by omega)
  have vM2 := charsToNat_specPad2 (d2.getMonth + 1) (by omega)
  have vD1 := charsToNat_specPad2 d1.getDate (by omega)
  have vD2 := charsToNat_specPad2 d2.getDate (by omega)
  have vH1 := charsToNat_specPad2 d1.getHours (by omega)
  have vH2 := charsToNat_specPad2 d2.getHours (by omega)
  have vMi1 := charsToNat_specPad2 d1.getMinutes (by omega)
  have vMi2 := charsToNat_specPad2 d2.getMinutes (by omega)
  have vS1 := charsToNat_specPad2 d1.getSeconds (by omega)
  have vS2 := charsToNat_specPad2 d2.getSeconds (by omega)
  rw [hM] at vM1
  rw [hD] at vD1
  rw [hH] at vH1
  rw [hMi] at vMi1
  rw [hS] at vS1
  refine ⟨by omega, by omega, by omega, by omega, by omega⟩

/-- A directory just created with the recursive flag is present. -/
theorem mem_mkdirRecursive (dirs : List String) (d : String) : d ∈ mkdirRecursive dirs d := by
  by_cases h : d ∈ dirs
  · rw [mkdirRecursive, if_pos h]
    exact h
  · rw [mkdirRecursive, if_neg h]
    exact List.mem_append_right dirs (List.mem_singleton.mpr rfl)

/-- Character data of the newline string literal. -/
theorem newline_data : (("\n") : String).data = [('\n')] := rfl

/-- Newline counts of the constant pieces of a log line. -/
theorem count_zero_specPad2 : ∀ n, n < 100 → ((specPad2 n).data).count ('\n') = 0 := by decide

/-- Level words contain no newline. -/
theorem count_zero_levelStr : ∀ l : LogLevel, ((LogLevel.str l).data).count ('\n') = 0 := by
  intro l
  cases l <;> decide

/-- Newline count of the opening bracket piece. -/
theorem count_lbrack : ((("[") : String).data).count ('\n') = 0 := by decide

/-- Newline count of the closing bracket piece. -/
theorem count_rbrack : ((("] ") : String).data).count ('\n') = 0 := by decide

/-- Newline count of the level separator piece. -/
theorem count_colonSp : (((": ") : String).data).count ('\n') = 0 := by decide

/-- Newline count of the timestamp separator piece. -/
theorem count_colon : (((":") : String).data).count ('\n') = 0 := by decide

/-- Newline count of the trailing newline piece. -/
theorem count_newlineStr : ((("\n") : String).data).count ('\n') = 1 := by decide

/-- Newline count of a formatted log line: one more than in the message. -/
theorem count_newline_logEntry (d : JsDate) (hv : d.Valid) (lvl : LogLevel) (msg : String) :
    ((logEntry (formatLogTimestamp d) lvl msg).data).count ('\n')
      = ((msg.data).count ('\n')) + 1 := by
  obtain ⟨h1, h2, h3, h4, h5, h6⟩ := hv
  rw [logEntry, formatLogTimestamp,
    padStart_eq_specPad2 d.getHours (by omega),
    padStart_eq_specPad2 d.getMinutes (by omega),
    padStart_eq_specPad2 d.getSeconds (by omega)]
  simp [strData_append, List.count_append,
    count_zero_specPad2 d.getHours (by omega),
    count_zero_specPad2 d.getMinutes (by omega),
    count_zero_specPad2 d.getSeconds (by omega),
    count_zero_levelStr lvl, count_lbrack, count_rbrack, count_colonSp, count_colon,
    count_newlineStr]

/-- C1: counterexample evaluation for the single-session claim: issuing two
emit calls constructs two LogKeeper sessions, the second overwriting the
stored one, instead of creating one session lazily and reusing it. -/
theorem c1_two_emits_construct_two_sessions :
    ((writeLog (writeLog initState LogLevel.INFO ("a") sampleDate sampleDate).1
      LogLevel.WARNING ("b") sampleDate2 sampleDate2).1).instances.length = 2
      ∧ ((writeLog (writeLog initState LogLevel.INFO ("a") sampleDate sampleDate).1
        LogLevel.WARNING ("b") sampleDate2 sampleDate2).1).storedInstance = some 1 :=
  ⟨rfl, rfl⟩

/-- C2: counterexample evaluation for the n-lines claim: a single emit
issued before any close writes nothing at all — the freshly constructed
instance is still uninitialized at the synchronous check, so the entry is
dropped with a diagnostic and no stream receives a formatted line. -/
theorem c2_single_emit_writes_no_line :
    (writeLog initState LogLevel.INFO ("a") sampleDate sampleDate).1.streams = []
      ∧ (writeLog initState LogLevel.INFO ("a") sampleDate sampleDate).2 = Except.ok ()
      ∧ (writeLog initState LogLevel.INFO ("a") sampleDate sampleDate).1.stderrMsgs
        = [("LogKeeper not initialized")] :=
  ⟨rfl, rfl, rfl⟩

/-- C3: counterexample evaluation for the close contract: after an emit
whose initialization then completes and opens a stream, close resolves
successfully yet the open stream is neither flushed nor closed, because
saveLogs operates on yet another freshly constructed uninitialized
instance. -/
theorem c3_close_does_not_flush_or_release :
    emitInitCloseScenario.2 = Except.ok ()
      ∧ emitInitCloseScenario.1.streams.map WriteStream.ended = [false]
      ∧ emitInitCloseScenario.1.instances.length = 2 :=
  ⟨rfl, rfl, rfl⟩

/-- C4: in every process state, emit returns normally with no exception,
reports the failure on the diagnostic channel and drops the entry, leaving
every stream — in particular a closed file — and the disk untouched. -/
theorem c4_emit_never_throws (s : ProcState) (lvl : LogLevel) (msg : String)
    (dc de : JsDate) :
    (writeLog s lvl msg dc de).2 = Except.ok ()
      ∧ (writeLog s lvl msg dc de).1.streams = s.streams
      ∧ (writeLog s lvl msg dc de).1.dirs = s.dirs
      ∧ (writeLog s lvl msg dc de).1.stderrMsgs
        = s.stderrMsgs ++ [("LogKeeper not initialized")] :=
  ⟨rfl, rfl, rfl, rfl⟩

/-- C5: counterexample evaluation for close idempotence: a second close is
not a no-op — it constructs yet another LogKeeper and schedules another
initialization, which on completion opens a fresh empty log file (the call
still produces no error and performs no flush). -/
theorem c5_second_close_has_side_effects :
    doubleCloseScenario.2 = Except.ok ()
      ∧ doubleCloseScenario.1.instances.length = 3
      ∧ doubleCloseScenario.1.pendingInits = [1, 2]
      ∧ doubleCloseScenario.1.streams.length = 1
      ∧ (completeInit doubleCloseScenario.1 2 none).streams.length = 2 :=
  ⟨rfl, rfl, rfl, rfl, rfl⟩

/-- C6: a constructed session's output path is the `logs` directory joined
with the creation-time timestamp in zero-padded `yyyy-MM-dd_HH-mm-ss` form
plus the `.log` suffix, and a successful initialization creates the log
directory recursively, so it is present afterwards whether or not it
already existed. -/
theorem c6_output_path_and_directory (s : ProcState) (d : JsDate) (hv : d.Valid) :
    (getInstance s d).1.logDir = ("logs")
      ∧ (getInstance s d).1.logFile = ("logs") ++ ("/") ++ specFilenameTimestamp d ++ (".log")
      ∧ ("logs") ∈ (completeInit (getInstance s d).2.2 (getInstance s d).2.1 none).dirs := by
  refine ⟨rfl, ?_, ?_⟩
  · apply strExt
    simp [getInstance, mkLogKeeper, pathJoin, strData_append,
      formatFilenameTimestamp_eq_spec d hv]
  · have hlook : ((getInstance s d).2.2).instances[(getInstance s d).2.1]?
        = some (mkLogKeeper d) := by
      simp [getInstance, List.getElem?_concat_length]
    simp [completeInit, hlook, mkLogKeeper]
    exact mem_mkdirRecursive _ _

/-- Witness for C6 at a concrete state and date. -/
theorem c6_output_path_and_directory_witness :
    sampleDate.Valid
      ∧ ((getInstance initState sampleDate).1.logDir = ("logs")
        ∧ (getInstance initState sampleDate).1.logFile
          = ("logs") ++ ("/") ++ specFilenameTimestamp sampleDate ++ (".log")
        ∧ ("logs") ∈ (completeInit (getInstance initState sampleDate).2.2
          (getInstance initState sampleDate).2.1 none).dirs) :=
  ⟨by decide, c6_output_path_and_directory initState sampleDate (by decide)⟩

/-- C7: the filename-timestamp formatter is injective at one-second
granularity: two valid local wall-clock readings that differ (in any
component, in particular by at least one second) produce different filename
timestamps, hence different filenames. -/
theorem c7_formatFilenameTimestamp_injective (d1 d2 : JsDate)
    (hv1 : d1.Valid) (hv2 : d2.Valid) (hne : d1 ≠ d2) :
    formatFilenameTimestamp d1 ≠ formatFilenameTimestamp d2 := by
  intro heq
  apply hne
  rw [formatFilenameTimestamp_eq_spec d1 hv1, formatFilenameTimestamp_eq_spec d2 hv2] at heq
  have hdata : (specFilenameTimestamp d1).data = (specFilenameTimestamp d2).data := by
    rw [heq]
  rw [specFilenameTimestamp_data, specFilenameTimestamp_data] at hdata
  obtain ⟨hy, hrest⟩ := List.append_inj' hdata
    (by rw [tsRest_length d1 hv1, tsRest_length d2 hv2])
  have hyear := natToString_inj hy
  obtain ⟨hm, hd, hh, hmi, hsec⟩ := tsRest_inj d1 d2 hv1 hv2 hrest
  cases d1
  cases d2
  simp_all

/-- Witness for C7 at two concrete times one second apart. -/
theorem c7_formatFilenameTimestamp_injective_witness :
    (sampleDate.Valid ∧ sampleDate2.Valid ∧ sampleDate ≠ sampleDate2)
      ∧ formatFilenameTimestamp sampleDate ≠ formatFilenameTimestamp sampleDate2 :=
  ⟨⟨by decide, by decide, by decide⟩,
    c7_formatFilenameTimestamp_injective sampleDate sampleDate2 (by decide) (by decide)
      (by decide)⟩

/-- C8: the completion handler of close propagates a close failure by
rejecting the promise with exactly that error and resolves it otherwise,
while every emit call swallows its failure after reporting it on the
diagnostic channel: its outcome is always success. -/
theorem c8_close_rejects_emit_swallows :
    (∀ e : JsError, saveLogsEndCallback (some e) = Except.error e)
      ∧ saveLogsEndCallback none = Except.ok ()
      ∧ (∀ (s : ProcState) (lvl : LogLevel) (msg : String) (dc de : JsDate),
        (writeLog s lvl msg dc de).2 = Except.ok ()
          ∧ (writeLog s lvl msg dc de).1.stderrMsgs
            = s.stderrMsgs ++ [("LogKeeper not initialized")]) :=
  ⟨fun _ => rfl, rfl, fun _ _ _ _ _ => ⟨rfl, rfl⟩⟩

/-- C9: every getInstance call unconditionally constructs a new LogKeeper
and overwrites the stored instance; the fresh object's writeStream is still
null at the synchronous check, so each writeLog call observes an
uninitialized session, writes nothing and reports the failure. -/
theorem c9_getInstance_always_fresh (s : ProcState) (lvl : LogLevel) (msg : String)
    (dc de : JsDate) :
    (getInstance s dc).1.writeStream = none
      ∧ (getInstance s dc).2.2.instances.length = s.instances.length + 1
      ∧ (getInstance s dc).2.2.storedInstance = some s.instances.length
      ∧ (writeLog s lvl msg dc de).1.streams = s.streams
      ∧ (writeLog s lvl msg dc de).1.stderrMsgs
        = s.stderrMsgs ++ [("LogKeeper not initialized")] := by
  refine ⟨rfl, ?_, rfl, rfl, rfl⟩
  simp [getInstance]

/-- C10: the message is embedded verbatim in the formatted entry, character
for character between the constant head and the trailing newline, with no
escaping; hence a message containing a newline makes the single entry span
more than one line (its newline count is at least two), so one emit does
not always yield exactly one file line. -/
theorem c10_newline_message_multiline (d : JsDate) (lvl : LogLevel) (msg : String)
    (hv : d.Valid) (hn : ('\n') ∈ msg.data) :
    (logEntry (formatLogTimestamp d) lvl msg).data
      = (entryHead (formatLogTimestamp d) lvl).data ++ msg.data ++ [('\n')]
      ∧ 2 ≤ ((logEntry (formatLogTimestamp d) lvl msg).data).count ('\n') := by
  constructor
  · simp [logEntry, entryHead, strData_append, newline_data]
  · have hc := count_newline_logEntry d hv lvl msg
    have hp : 0 < (msg.data).count ('\n') := List.count_pos_iff.mpr hn
    omega

/-- Witness for C10 with a concrete message containing a newline. -/
theorem c10_newline_message_multiline_witness :
    (sampleDate.Valid ∧ ('\n') ∈ (("a\nb") : String).data)
      ∧ ((logEntry (formatLogTimestamp sampleDate) LogLevel.INFO ("a\nb")).data
        = (entryHead (formatLogTimestamp sampleDate) LogLevel.INFO).data
          ++ (("a\nb") : String).data ++ [('\n')]
        ∧ 2 ≤ ((logEntry (formatLogTimestamp sampleDate) LogLevel.INFO ("a\nb")).data).count
          ('\n')) :=
  ⟨⟨by decide, by decide⟩,
    c10_newline_message_multiline sampleDate LogLevel.INFO ("a\nb") (by decide) (by decide)⟩
